import Mathlib

/-!
Shallow embedding of the StoryTeller story engine
(`story_teller/story/page.py`, `tree.py`, `path.py`).

Python dicts are modelled as association lists in insertion order,
Python exceptions as an explicit error type threaded through `Except`
(for constructors) or returned next to the post-mutation state
(for methods that mutate `self` before possibly raising), and Python
floats as rationals.
-/

namespace StoryTeller

/-- The kinds of runtime errors the Python code can raise.
`invalidOp`, `notFound` and `duplicateKey` model the `ValueError`s the
code raises intentionally (per the spec taxonomy); `validation` models
pydantic validation failures; `typeError`, `indexError`,
`attributeError` and `unboundLocal` model the corresponding Python
crashes (`TypeError`, `IndexError`, `AttributeError`,
`UnboundLocalError`). -/
inductive Err where
  | invalidOp
  | notFound
  | duplicateKey
  | validation
  | typeError
  | indexError
  | attributeError
  | unboundLocal
deriving DecidableEq, Repr

/-- `KarmaPoints.cap`: clamp a value to the interval [-1, 1]. -/
def cap (x : ℚ) : ℚ := max (-1) (min 1 x)

/-- `KarmaPoints` (page.py): four clamped dimensions. Python floats are
modelled as rationals. A value built by the code always has every field
already clamped (the constructor caps each field). -/
structure KarmaPoints where
  technology : ℚ
  happiness : ℚ
  safety : ℚ
  control : ℚ
deriving DecidableEq, Repr

/-- `KarmaPoints.__add__`: field-wise sum, capped. -/
def KarmaPoints.add (a b : KarmaPoints) : KarmaPoints :=
  ⟨cap (a.technology + b.technology), cap (a.happiness + b.happiness),
   cap (a.safety + b.safety), cap (a.control + b.control)⟩

/-- `KarmaPoints.__sub__`: field-wise difference, capped. -/
def KarmaPoints.sub (a b : KarmaPoints) : KarmaPoints :=
  ⟨cap (a.technology - b.technology), cap (a.happiness - b.happiness),
   cap (a.safety - b.safety), cap (a.control - b.control)⟩

/-- `KarmaPoints()`: the default zero value. -/
def KarmaPoints.zero : KarmaPoints := ⟨0, 0, 0, 0⟩

/-- `PageType` (page.py): a `StrEnum` with exactly three members,
START = "start", ACTION = "action", END = "end". -/
inductive PageType where
  | START
  | ACTION
  | END
deriving DecidableEq, Repr

/-- The string value of a `PageType` member. -/
def PageType.str : PageType → String
  | .START => "start"
  | .ACTION => "action"
  | .END => "end"

/-- `PageType(s)`: parse a string into the enum; any string other than
the three member values raises `ValueError` (modelled as a validation
error). -/
def PageType.ofString (s : String) : Except Err PageType :=
  if s == "start" then .ok .START
  else if s == "action" then .ok .ACTION
  else if s == "end" then .ok .END
  else .error .validation

/-- `Description` (page.py): three required string fields. -/
structure Description where
  page : String
  action : String
  image : String
deriving DecidableEq, Repr

/-- `Image` (page.py): three optional string fields (default `None`). -/
structure Image where
  path : Option String
  url : Option String
  description : Option String
deriving DecidableEq, Repr

/-- `Page` (page.py): the content of one node. `action` is validated by
pydantic to have length between 1 and 100. -/
structure Page where
  uuid : String
  page_type : PageType
  action : String
  karma : KarmaPoints
  description : Option Description
  image : Option Image
deriving DecidableEq, Repr

/-- `Page(...)` construction: pydantic validates `action` length
(min 1, max 100); on failure a `ValidationError` is raised. -/
def Page.validated (uuid : String) (page_type : PageType) (action : String)
    (karma : KarmaPoints) (description : Option Description)
    (image : Option Image) : Except Err Page :=
  if 1 ≤ action.length ∧ action.length ≤ 100 then
    .ok ⟨uuid, page_type, action, karma, description, image⟩
  else .error .validation

/-- `PageRepository.pages`: a Python dict from uuid to `Page`, modelled
as an association list in insertion order with unique keys. -/
abbrev PageRepository := List (String × Page)

/-- `PageRepository.get_page` / `dict.get`: first binding for the key. -/
def repoGet (ps : PageRepository) (uuid : String) : Option Page :=
  (ps.find? (fun kv => kv.1 == uuid)).map (fun kv => kv.2)

/-- `PageRepository.add_page` with the default `safe=True`: raises
`ValueError` (duplicate key) when the uuid is present, otherwise
inserts the page under its uuid. -/
def repoAdd (ps : PageRepository) (p : Page) : Except Err PageRepository :=
  if (repoGet ps p.uuid).isSome then .error .duplicateKey
  else .ok (ps ++ [(p.uuid, p)])

/-- `PageRepository.remove_page`: raises `ValueError` (not found) when
the uuid is absent, otherwise deletes the binding. -/
def repoRemove (ps : PageRepository) (uuid : String) :
    Except Err PageRepository :=
  if (repoGet ps uuid).isSome then
    .ok (ps.filter (fun kv => kv.1 != uuid))
  else .error .notFound

/-- `TreeNode` (tree.py): a page uuid plus an ordered list of children.
The Python `parent` back-pointer is not stored: a node's identity is
its position (list of child indices) from the root, and its parent is
the position with the last index dropped. -/
inductive TreeNode where
  | mk (page_uuid : String) (children : List TreeNode)

/-- The page uuid carried by a node. -/
def TreeNode.page_uuid : TreeNode → String
  | ⟨u, _⟩ => u

/-- The ordered children of a node. -/
def TreeNode.children : TreeNode → List TreeNode
  | ⟨_, cs⟩ => cs

mutual

/-- `TreeNode._cascade_remove`: collect all uuids of a subtree, each
child's uuids (in order) followed by the node's own uuid. -/
def TreeNode.cascade_remove : TreeNode → List String
  | ⟨u, cs⟩ => cascadeList cs ++ [u]

/-- Helper for `TreeNode.cascade_remove`: the loop over children. -/
def cascadeList : List TreeNode → List String
  | [] => []
  | c :: cs => TreeNode.cascade_remove c ++ cascadeList cs

end

/-- `TreeNode.remove_node`: filter out every direct child whose uuid
matches (the Python loop keeps the last match as `removed_child`), and
cascade-collect the removed subtree's uuids; an absent child yields an
empty list. -/
def TreeNode.remove_node (n : TreeNode) (uuid : String) :
    TreeNode × List String :=
  let kept := n.children.filter (fun c => c.page_uuid != uuid)
  let removed := (n.children.filter (fun c => c.page_uuid == uuid)).getLast?
  (⟨n.page_uuid, kept⟩,
   match removed with
   | some c => c.cascade_remove
   | none => [])

mutual

/-- `StoryTree.search_page_node`: pre-order depth-first search, the
node itself first and then each child in order; returns the position of
the first match. -/
def TreeNode.searchPos : TreeNode → String → Option (List Nat)
  | ⟨u, cs⟩, uuid =>
    if u == uuid then some []
    else searchPosList cs uuid 0

/-- Helper for `TreeNode.searchPos`: the loop over children, keeping
the index of the child searched. -/
def searchPosList : List TreeNode → String → Nat → Option (List Nat)
  | [], _, _ => none
  | c :: cs, uuid, i =>
    match c.searchPos uuid with
    | some p => some (i :: p)
    | none => searchPosList cs uuid (i + 1)

end

/-- The subtree of a node at a position (list of child indices). -/
def TreeNode.subtreeAt : TreeNode → List Nat → Option TreeNode
  | n, [] => some n
  | n, i :: rest =>
    match n.children.get? i with
    | some c => c.subtreeAt rest
    | none => none

/-- Rewrite the subtree at a position with a function that also
produces a side value; an invalid position leaves the tree unchanged
(unreachable in the claims, where positions come from a search on the
same tree). -/
def TreeNode.updateAt (n : TreeNode) (pos : List Nat)
    (f : TreeNode → TreeNode × List String) : TreeNode × List String :=
  match pos with
  | [] => f n
  | i :: rest =>
    match n.children.get? i with
    | none => (n, [])
    | some c =>
      let r := c.updateAt rest f
      (⟨n.page_uuid, n.children.set i r.1⟩, r.2)

/-- `StoryTree` (tree.py): an optional root node plus the page
repository. The `tree_source` file name is irrelevant to the claims
and omitted. -/
structure StoryTree where
  root : Option TreeNode
  pages : PageRepository

/-- `StoryTree.add_page`: first `pages.add_page(page)` (raises on a
duplicate uuid, before any structural change), then a fresh node is
created; with no parent it becomes the root (unconditionally replacing
any existing root), otherwise it is appended to the parent's children.
The parent is given by its position in the tree. The pair returned is
the state of the tree when the call finishes or raises, together with
the outcome. -/
def StoryTree.add_page (t : StoryTree) (page : Page)
    (parent_node : Option (List Nat)) : StoryTree × Except Err Unit :=
  match repoAdd t.pages page with
  | .error e => (t, .error e)
  | .ok pages1 =>
    match parent_node with
    | none => ({ root := some ⟨page.uuid, []⟩, pages := pages1 }, .ok ())
    | some pos =>
      match t.root with
      | none => ({ t with pages := pages1 }, .error .attributeError)
      | some r =>
        let res := r.updateAt pos
          (fun n => (⟨n.page_uuid, n.children ++ [⟨page.uuid, []⟩]⟩, []))
        ({ root := some res.1, pages := pages1 }, .ok ())

/-- The loop `for removed_uuid in removed_uuids: pages.remove_page(...)`
at the end of `StoryTree.remove_page`: removals happen one by one, and
a missing uuid raises mid-loop leaving the earlier removals done. -/
def removeAll (ps : PageRepository) :
    List String → PageRepository × Except Err Unit
  | [] => (ps, .ok ())
  | u :: us =>
    match repoRemove ps u with
    | .error e => (ps, .error e)
    | .ok ps1 => removeAll ps1 us

/-- `StoryTree.remove_page`: looks the node up with `search_page_node`
(raises `ValueError` when absent); when the node is the root the code
sets `self.root = None` and then reads the variable `removed_uuids`,
which was only assigned in the non-root branch — an
`UnboundLocalError` with the repository untouched; for a non-root node
it removes the node from its parent, then deletes every collected uuid
from the repository. -/
def StoryTree.remove_page (t : StoryTree) (uuid : String) :
    StoryTree × Except Err Unit :=
  match t.root with
  | none => (t, .error .notFound)
  | some r =>
    match r.searchPos uuid with
    | none => (t, .error .notFound)
    | some [] => ({ t with root := none }, .error .unboundLocal)
    | some (i :: rest) =>
      let res := r.updateAt ((i :: rest).dropLast)
        (fun parent => parent.remove_node uuid)
      let rr := removeAll t.pages res.2
      ({ root := some res.1, pages := rr.1 }, rr.2)

/-- `Path` (path.py): a traversal session. `_story_tree` is stored in
the object (a shared reference in Python: here the tree travels inside
the state so that any mutation of it would be observable), the current
and starting nodes are stored as positions in that tree, with `none`
for Python's `None`. -/
structure Path where
  starting_page_node : List Nat
  current_page_node : Option (List Nat)
  story_tree : StoryTree
  is_finished : Bool
  pages_uuid : List String
  actions_taken : List String

/-- `Path.__init__`: raises `ValueError` when the tree has no root;
otherwise the cursor starts at the root, `_pages_uuid` starts with the
root's uuid and `_actions_taken` with the root page's own `action`
(reading `.action` on the result of `get_page` raises
`AttributeError` when the root page is missing). -/
def Path.init (t : StoryTree) : Except Err Path :=
  match t.root with
  | none => .error .invalidOp
  | some r =>
    match repoGet t.pages r.page_uuid with
    | none => .error .attributeError
    | some pg =>
      .ok { starting_page_node := []
            current_page_node := some []
            story_tree := t
            is_finished := false
            pages_uuid := [r.page_uuid]
            actions_taken := [pg.action] }

/-- Python dict insertion `d[k] = v`: replace the value in place when
the key is present, otherwise append the binding. -/
def dictInsert (d : List (String × Nat)) (k : String) (v : Nat) :
    List (String × Nat) :=
  if d.any (fun kv => kv.1 == k) then
    d.map (fun kv => if kv.1 == k then (k, v) else kv)
  else d ++ [(k, v)]

/-- Python dict lookup: the binding for the key (keys are unique). -/
def dictLookup (d : List (String × Nat)) (k : String) : Option Nat :=
  (d.find? (fun kv => kv.1 == k)).map (fun kv => kv.2)

/-- The loop of `Path.view_action_options`: for each child in order,
look its page up (reading `.page_type` on `None` raises
`AttributeError`), label it "Start " ++ uuid for START pages and with
the page's own `action` otherwise, and insert it into the dict mapping
label to child; the child is recorded by its index. -/
def buildOptions (ps : PageRepository) :
    List TreeNode → Nat → List (String × Nat) →
    Except Err (List (String × Nat))
  | [], _, acc => .ok acc
  | c :: cs, i, acc =>
    match repoGet ps c.page_uuid with
    | none => .error .attributeError
    | some cp =>
      let label :=
        if cp.page_type == PageType.START then "Start " ++ cp.uuid
        else cp.action
      buildOptions ps cs (i + 1) (dictInsert acc label i)

/-- The current node of a path: the subtree of the tree root at the
cursor position. -/
def Path.currentNode (p : Path) : Option TreeNode :=
  match p.current_page_node with
  | none => none
  | some pos =>
    match p.story_tree.root with
    | none => none
    | some r => r.subtreeAt pos

/-- `Path.view_action_options`: enumerate the current node's children
(an `AttributeError` when the cursor is `None`). -/
def Path.view_action_options (p : Path) :
    Except Err (List (String × Nat)) :=
  match p.currentNode with
  | none => .error .attributeError
  | some n => buildOptions p.story_tree.pages n.children 0 []

/-- `Path.get_current_page`: the repository lookup for the current
node's uuid (which may be `None` without an error); an
`AttributeError` when the cursor is `None`. -/
def Path.get_current_page (p : Path) : Except Err (Option Page) :=
  match p.currentNode with
  | none => .error .attributeError
  | some n => .ok (repoGet p.story_tree.pages n.page_uuid)

/-- `Path.take_action`: raises `ValueError` ("action not available")
when the label is not a key of the options; otherwise the cursor moves
to the chosen child and both history lists grow, after which the new
page is looked up (reading `.page_type` on `None` raises
`AttributeError`, the earlier assignments already done) and
`_is_finished` is set to true if its type is END, otherwise left
unchanged; the flag is returned. The pair returned is the state when
the call finishes or raises, together with the outcome. -/
def Path.take_action (p : Path) (action : String) :
    Path × Except Err Bool :=
  match p.view_action_options with
  | .error e => (p, .error e)
  | .ok opts =>
    match dictLookup opts action with
    | none => (p, .error .notFound)
    | some i =>
      match p.current_page_node with
      | none => (p, .error .attributeError)
      | some pos =>
        match p.story_tree.root with
        | none => (p, .error .attributeError)
        | some r =>
          match r.subtreeAt (pos ++ [i]) with
          | none => (p, .error .attributeError)
          | some child =>
            let p1 := { p with
              current_page_node := some (pos ++ [i])
              pages_uuid := p.pages_uuid ++ [child.page_uuid]
              actions_taken := p.actions_taken ++ [action] }
            match repoGet p.story_tree.pages child.page_uuid with
            | none => (p1, .error .attributeError)
            | some np =>
              let fin :=
                if np.page_type == PageType.END then true
                else p.is_finished
              ({ p1 with is_finished := fin }, .ok fin)

/-- `Path.go_back`: raises `ValueError` when `len(_pages_uuid) == 2`;
otherwise pops the last entry of `_pages_uuid` (an `IndexError` on an
empty list), then of `_actions_taken` (likewise, with the first pop
already done), then moves the cursor to the parent of the current node
(`AttributeError` when the cursor is `None`; the parent of the root is
`None`) and clears `_is_finished`. The pair returned is the state when
the call finishes or raises, together with the outcome. -/
def Path.go_back (p : Path) : Path × Except Err Unit :=
  if p.pages_uuid.length == 2 then (p, .error .invalidOp)
  else
    match p.pages_uuid with
    | [] => (p, .error .indexError)
    | _ :: _ =>
      let p1 := { p with pages_uuid := p.pages_uuid.dropLast }
      match p.actions_taken with
      | [] => (p1, .error .indexError)
      | _ :: _ =>
        let p2 := { p1 with actions_taken := p.actions_taken.dropLast }
        match p.current_page_node with
        | none => (p2, .error .attributeError)
        | some pos =>
          ({ p2 with
              current_page_node :=
                if pos == ([] : List Nat) then none
                else some pos.dropLast
              is_finished := false }, .ok ())

/-- The loop of `Path.compute_karma`: fold `KarmaPoints.__add__` over
the visited pages' karma, raising `ValueError` ("not found") when a
visited uuid no longer resolves. -/
def computeKarmaAux (ps : PageRepository) :
    List String → KarmaPoints → Except Err KarmaPoints
  | [], acc => .ok acc
  | u :: us, acc =>
    match repoGet ps u with
    | none => .error .notFound
    | some pg => computeKarmaAux ps us (acc.add pg.karma)

/-- `Path.compute_karma`: start from `KarmaPoints()` and fold over
`_pages_uuid`. -/
def Path.compute_karma (p : Path) : Except Err KarmaPoints :=
  computeKarmaAux p.story_tree.pages p.pages_uuid KarmaPoints.zero

/-- `Path.get_pages`: the repository lookups for the visited uuids, in
order (entries may be `None`). -/
def Path.get_pages (p : Path) : List (Option Page) :=
  p.pages_uuid.map (repoGet p.story_tree.pages)

/-- `Path.get_actions_taken`: a copy of the taken-action history. -/
def Path.get_actions_taken (p : Path) : List String :=
  p.actions_taken

/-! ## The persisted document format

JSON objects of the shapes read by `PageRepository.from_dict` /
`TreeNode.from_dict` and written by `to_dict` are modelled as typed
records. An `Option` field with value `none` stands for a JSON `null`
(or an absent key: pydantic treats both the same for the fields below,
rejecting them for required fields and defaulting for optional ones). -/

/-- The `"karma"` object of a page document: the four dimensions, each
possibly absent/null (pydantic then uses the default 0.0). -/
structure KarmaDoc where
  technology : Option ℚ
  happiness : Option ℚ
  safety : Option ℚ
  control : Option ℚ
deriving DecidableEq, Repr

/-- The `"description"` object of a page document. `Description`
declares `page`, `action` and `image` as required strings, so `none`
(null/absent) in any field makes pydantic raise a validation error. -/
structure DescriptionDoc where
  page : Option String
  action : Option String
  image : Option String
deriving DecidableEq, Repr

/-- The `"image"` object of a page document: all three fields are
`Optional[str]` with default `None`. -/
structure ImageDoc where
  path : Option String
  url : Option String
  description : Option String
deriving DecidableEq, Repr

/-- One entry of the `"pages"` map. `uuid` is the key `to_dict` writes
back but `from_dict` never reads (`none` when the document, like the
spec's format, carries no such key); `description` and `image` may be
null. -/
structure PageDoc where
  uuid : Option String
  page_type : String
  action : Option String
  karma : KarmaDoc
  description : Option DescriptionDoc
  image : Option ImageDoc
deriving DecidableEq, Repr

/-- The `"root"` object: `{"page_uuid": ..., "children": [...]}`,
recursively. -/
inductive RootDoc where
  | mk (page_uuid : String) (children : List RootDoc)

/-- The whole persisted document: a root object and a pages map
(modelled, like the repository, as an association list in insertion
order). -/
structure StoryDoc where
  root : RootDoc
  pages : List (String × PageDoc)

/-- `KarmaPoints(**karma)`: each present field is taken, each missing
one defaults to 0.0, and the constructor clamps every field. -/
def KarmaPoints.fromDoc (k : KarmaDoc) : KarmaPoints :=
  ⟨cap (k.technology.getD 0), cap (k.happiness.getD 0),
   cap (k.safety.getD 0), cap (k.control.getD 0)⟩

/-- `Description(**d)`: all three fields are required strings. -/
def Description.fromDoc (d : DescriptionDoc) : Except Err Description :=
  match d.page, d.action, d.image with
  | some pg, some a, some im => .ok ⟨pg, a, im⟩
  | _, _, _ => .error .validation

/-- `Image(**i)`: all fields optional. -/
def Image.fromDoc (i : ImageDoc) : Image := ⟨i.path, i.url, i.description⟩

/-- The body of the `PageRepository.from_dict` loop for one page, in
source order: parse `page_type` (a `ValueError` on an unknown value,
"context" included), build `KarmaPoints`, build `Description` — a
`TypeError` when the document's description is null, a validation
error when a field is missing — build `Image` when the value is
truthy, then construct the `Page` (pydantic validates the action
string's length there, and `action=None` also fails validation). -/
def Page.fromDoc (page_uuid : String) (d : PageDoc) : Except Err Page :=
  match PageType.ofString d.page_type with
  | .error e => .error e
  | .ok pt =>
    let karma := KarmaPoints.fromDoc d.karma
    match d.description with
    | none => .error .typeError
    | some dd =>
      match Description.fromDoc dd with
      | .error e => .error e
      | .ok de =>
        let im := d.image.map Image.fromDoc
        match d.action with
        | none => .error .validation
        | some a => Page.validated page_uuid pt a karma (some de) im

/-- The body of the `PageRepository.to_dict` loop for one page: a dict
with the keys `uuid`, `page_type`, `action`, `karma` (all four
fields), `description` (reading `.model_dump()` on `None` raises
`AttributeError`) and `image` (null when absent). -/
def Page.toDoc (p : Page) : Except Err PageDoc :=
  match p.description with
  | none => .error .attributeError
  | some d =>
    .ok { uuid := some p.uuid
          page_type := p.page_type.str
          action := some p.action
          karma := ⟨some p.karma.technology, some p.karma.happiness,
                    some p.karma.safety, some p.karma.control⟩
          description := some ⟨some d.page, some d.action, some d.image⟩
          image := p.image.map (fun i => ⟨i.path, i.url, i.description⟩) }

/-- `PageRepository.from_dict`: build the pages map in document order,
the first failing page aborting the load. -/
def repoFromDoc : List (String × PageDoc) → Except Err PageRepository
  | [] => .ok []
  | (u, d) :: rest =>
    match Page.fromDoc u d with
    | .error e => .error e
    | .ok p =>
      match repoFromDoc rest with
      | .error e => .error e
      | .ok ps => .ok ((u, p) :: ps)

/-- `PageRepository.to_dict`: dump every page in repository order. -/
def repoToDoc : PageRepository → Except Err (List (String × PageDoc))
  | [] => .ok []
  | (u, p) :: rest =>
    match Page.toDoc p with
    | .error e => .error e
    | .ok d =>
      match repoToDoc rest with
      | .error e => .error e
      | .ok ds => .ok ((u, d) :: ds)

mutual

/-- `TreeNode.from_dict`: a node from `{"page_uuid", "children"}`,
children built and appended in order. -/
def TreeNode.fromDoc : RootDoc → TreeNode
  | ⟨u, cs⟩ => ⟨u, treeListFromDoc cs⟩

/-- Helper for `TreeNode.fromDoc`: the loop over the children array. -/
def treeListFromDoc : List RootDoc → List TreeNode
  | [] => []
  | c :: cs => TreeNode.fromDoc c :: treeListFromDoc cs

end

mutual

/-- `TreeNode.to_dict`: the inverse dump, same two keys, children in
order. -/
def TreeNode.toDoc : TreeNode → RootDoc
  | ⟨u, cs⟩ => ⟨u, treeListToDoc cs⟩

/-- Helper for `TreeNode.toDoc`: the loop over the children list. -/
def treeListToDoc : List TreeNode → List RootDoc
  | [] => []
  | c :: cs => TreeNode.toDoc c :: treeListToDoc cs

end

/-- `StoryTreeFactory.from_json` without the file I/O: build the root
from `doc["root"]` and the repository from `doc["pages"]`. -/
def StoryTreeFactory.fromDoc (doc : StoryDoc) : Except Err StoryTree :=
  match repoFromDoc doc.pages with
  | .error e => .error e
  | .ok pages => .ok ⟨some (TreeNode.fromDoc doc.root), pages⟩

/-- `StoryTreeWriter.to_json` without the file I/O: dump the root
(`TreeNode.to_dict(None)` would raise `AttributeError`) and the
repository. -/
def StoryTreeWriter.toDoc (t : StoryTree) : Except Err StoryDoc :=
  match t.root with
  | none => .error .attributeError
  | some r =>
    match repoToDoc t.pages with
    | .error e => .error e
    | .ok pd => .ok ⟨TreeNode.toDoc r, pd⟩

/-- The save-after-load composition the round-trip property is about. -/
def roundTrip (doc : StoryDoc) : Except Err StoryDoc :=
  match StoryTreeFactory.fromDoc doc with
  | .error e => .error e
  | .ok t => StoryTreeWriter.toDoc t

/-- The karma object of a document is canonical when all four fields
are present with values already inside [-1, 1] (so that clamping is
the identity). -/
def karmaDocOk (k : KarmaDoc) : Bool :=
  match k.technology, k.happiness, k.safety, k.control with
  | some a, some b, some c, some d =>
    decide (-1 ≤ a ∧ a ≤ 1) && decide (-1 ≤ b ∧ b ≤ 1) &&
    decide (-1 ≤ c ∧ c ≤ 1) && decide (-1 ≤ d ∧ d ≤ 1)
  | _, _, _, _ => false

/-- A page document is canonical for its key when it carries the key
as its `uuid` field, a known page type, an action string of valid
length, a canonical karma object, and a non-null description with all
three fields present. -/
def pageDocOk (u : String) (d : PageDoc) : Bool :=
  d.uuid == some u &&
  (d.page_type == "start" || d.page_type == "action" ||
   d.page_type == "end") &&
  (match d.action with
   | some a => decide (1 ≤ a.length ∧ a.length ≤ 100)
   | none => false) &&
  karmaDocOk d.karma &&
  (match d.description with
   | some dd => dd.page.isSome && dd.action.isSome && dd.image.isSome
   | none => false)

/-- A document is canonical when every page entry is. -/
def storyDocOk (doc : StoryDoc) : Bool :=
  doc.pages.all (fun ud => pageDocOk ud.1 ud.2)

/-! ## Concrete fixtures

Small trees, pages and documents used to evaluate the definitions at
explicit inputs. -/

/-- A written description used by the fixture pages. -/
def descA : Description := ⟨"a room", "you enter", "a dark room"⟩

/-- The start page of the two-node fixture tree. -/
def page0 : Page := ⟨"0", .START, "start", KarmaPoints.zero, some descA, none⟩

/-- The single action page of the two-node fixture tree. -/
def page1 : Page :=
  ⟨"1", .ACTION, "action1", KarmaPoints.zero, some descA, none⟩

/-- A two-node tree: root "0" with one child "1". -/
def tree2 : StoryTree :=
  ⟨some ⟨"0", [⟨"1", []⟩]⟩, [("0", page0), ("1", page1)]⟩

/-- The path obtained by constructing `Path` on `tree2`. -/
def path2 : Path :=
  { starting_page_node := []
    current_page_node := some []
    story_tree := tree2
    is_finished := false
    pages_uuid := ["0"]
    actions_taken := ["start"] }

/-- A fresh page not present in `tree2`. -/
def pageN : Page := ⟨"n", .ACTION, "new", KarmaPoints.zero, none, none⟩

/-- The END page of the three-node chain fixture. -/
def pageE : Page := ⟨"e", .END, "actionE", KarmaPoints.zero, some descA, none⟩

/-- The ACTION page sitting below the END page in the chain fixture. -/
def pageX : Page :=
  ⟨"x", .ACTION, "actionX", KarmaPoints.zero, some descA, none⟩

/-- The node of `pageE`, which has a child even though its page type is
END (nothing in the code prevents building such a tree). -/
def nodeE : TreeNode := ⟨"e", [⟨"x", []⟩]⟩

/-- The root node of the chain fixture. -/
def rootE : TreeNode := ⟨"0", [nodeE]⟩

/-- A chain tree root "0" → "e" (END) → "x" (ACTION). -/
def treeE : StoryTree :=
  ⟨some rootE, [("0", page0), ("e", pageE), ("x", pageX)]⟩

/-- The path obtained by constructing `Path` on `treeE`. -/
def pathE0 : Path :=
  { starting_page_node := []
    current_page_node := some []
    story_tree := treeE
    is_finished := false
    pages_uuid := ["0"]
    actions_taken := ["start"] }

/-- The all-ones karma value (every field already clamped). -/
def kOne : KarmaPoints := ⟨1, 1, 1, 1⟩

/-- A karma document with all four fields present and zero. -/
def karmaDoc0 : KarmaDoc := ⟨some 0, some 0, some 0, some 0⟩

/-- A description document with all three fields present. -/
def descDocFull : DescriptionDoc := ⟨some "a room", some "you enter", some "a dark room"⟩

/-- A page document whose description is null — valid in the spec's
persisted format. -/
def pageDocNullDesc : PageDoc :=
  ⟨none, "start", some "go", karmaDoc0, none, none⟩

/-- A one-page document with a null description. -/
def nullDescDoc : StoryDoc := ⟨⟨"0", []⟩, [("0", pageDocNullDesc)]⟩

/-- A page document that is canonical except for the page type
"context". -/
def pageDocCtx : PageDoc :=
  ⟨some "0", "context", some "go", karmaDoc0, some descDocFull, none⟩

/-- An otherwise-valid one-page document whose page has type
"context". -/
def ctxDoc : StoryDoc := ⟨⟨"0", []⟩, [("0", pageDocCtx)]⟩

/-- A karma document with in-range non-zero values. -/
def karmaDocMix : KarmaDoc :=
  ⟨some 1, some 0, some (-1), some 1⟩

/-- A canonical page document for key "0". -/
def pageDocGood0 : PageDoc :=
  ⟨some "0", "start", some "start", karmaDocMix, some descDocFull, none⟩

/-- A canonical page document for key "1", with an image object. -/
def pageDocGood1 : PageDoc :=
  ⟨some "1", "end", some "action1", karmaDoc0, some descDocFull,
   some ⟨some "img.png", none, some "alt text"⟩⟩

/-- A canonical two-page document whose root has one child. -/
def goodDoc : StoryDoc :=
  ⟨⟨"0", [⟨"1", []⟩]⟩, [("0", pageDocGood0), ("1", pageDocGood1)]⟩

/-! ## Helper lemmas -/

/-- Clamping a value already inside [-1, 1] is the identity. -/
theorem cap_of_inRange (x : ℚ) (h1 : -1 ≤ x) (h2 : x ≤ 1) : cap x = x := by
  unfold cap
  rw [min_eq_right h2, max_eq_right h1]

/-! ## Claims -/

/-- C7 counterexample: for `a = b = ⟨1,1,1,1⟩` (already clamped),
`subtract(add(a,b),b)` is the zero value, not `a`, because the
addition clamps `2` down to `1` before the subtraction. -/
theorem karma_add_sub_not_inverse : (kOne.add kOne).sub kOne ≠ kOne := by
  have h1 : (kOne.add kOne).sub kOne = KarmaPoints.zero := by
    norm_num [kOne, KarmaPoints.add, KarmaPoints.sub, KarmaPoints.zero, cap,
      min_def, max_def]
  rw [h1]
  simp only [KarmaPoints.zero, kOne, ne_eq, KarmaPoints.mk.injEq]
  norm_num

/-- C7 (amended): when every field of `a` lies in [-1, 1] and every
field-wise sum `a + b` also lies in [-1, 1] (so no clamping occurs in
the addition), `subtract(add(a, b), b) = a`. -/
theorem karma_add_sub_inverse (a b : KarmaPoints)
    (hat : -1 ≤ a.technology ∧ a.technology ≤ 1)
    (hah : -1 ≤ a.happiness ∧ a.happiness ≤ 1)
    (has : -1 ≤ a.safety ∧ a.safety ≤ 1)
    (hac : -1 ≤ a.control ∧ a.control ≤ 1)
    (hst : -1 ≤ a.technology + b.technology ∧
           a.technology + b.technology ≤ 1)
    (hsh : -1 ≤ a.happiness + b.happiness ∧ a.happiness + b.happiness ≤ 1)
    (hss : -1 ≤ a.safety + b.safety ∧ a.safety + b.safety ≤ 1)
    (hsc : -1 ≤ a.control + b.control ∧ a.control + b.control ≤ 1) :
    (a.add b).sub b = a := by
  obtain ⟨t, h, s, c⟩ := a
  obtain ⟨t2, h2, s2, c2⟩ := b
  simp only [KarmaPoints.add, KarmaPoints.sub] at *
  rw [cap_of_inRange _ hst.1 hst.2, cap_of_inRange _ hsh.1 hsh.2,
      cap_of_inRange _ hss.1 hss.2, cap_of_inRange _ hsc.1 hsc.2,
      add_sub_cancel_right, add_sub_cancel_right, add_sub_cancel_right,
      add_sub_cancel_right,
      cap_of_inRange _ hat.1 hat.2, cap_of_inRange _ hah.1 hah.2,
      cap_of_inRange _ has.1 has.2, cap_of_inRange _ hac.1 hac.2]

/-- C7 witness: the amended theorem applied at concrete in-range
values. -/
theorem karma_add_sub_inverse_witness :
    ((KarmaPoints.mk (1/2) (-1/2) 0 (1/4)).add ⟨1/4, 1/4, 0, 0⟩).sub
      ⟨1/4, 1/4, 0, 0⟩ = ⟨1/2, -1/2, 0, 1/4⟩ :=
  karma_add_sub_inverse ⟨1/2, -1/2, 0, 1/4⟩ ⟨1/4, 1/4, 0, 0⟩
    (by norm_num) (by norm_num) (by norm_num) (by norm_num)
    (by norm_num) (by norm_num) (by norm_num) (by norm_num)

/-- C9 counterexample: loading an otherwise-canonical document whose
page has `page_type` "context" fails (the `PageType` enum has no
CONTEXT member, so `PageType("context")` raises `ValueError`). -/
theorem loading_context_page_type_fails :
    StoryTreeFactory.fromDoc ctxDoc = .error .validation := rfl

/-- C9 (amended): a page's type takes exactly the three values START,
ACTION and END, whose string values "start", "action" and "end" are
the ones the loader accepts; "context" is rejected. -/
theorem page_type_three_values :
    (∀ pt : PageType, pt = .START ∨ pt = .ACTION ∨ pt = .END) ∧
    PageType.ofString "start" = .ok .START ∧
    PageType.ofString "action" = .ok .ACTION ∧
    PageType.ofString "end" = .ok .END ∧
    PageType.ofString "context" = .error .validation := by
  refine ⟨fun pt => ?_, rfl, rfl, rfl, rfl⟩
  cases pt
  · exact Or.inl rfl
  · exact Or.inr (Or.inl rfl)
  · exact Or.inr (Or.inr rfl)

/-- C2: the guard of `go_back` tests `len(_pages_uuid) == 2`, not 1:
immediately after construction (history length 1) `go_back` does not
raise — it empties both histories and moves the cursor to `None` —
while at history length 2, where the claim requires success, it raises
the `InvalidOperationError`-style `ValueError`. The repository's own
tests assert the opposite behavior on both counts. -/
theorem go_back_guard_is_two :
    Path.init tree2 = .ok path2 ∧
    path2.pages_uuid.length = 1 ∧
    (path2.go_back).2 = .ok () ∧
    ((path2.take_action "action1").1.pages_uuid.length = 2) ∧
    (((path2.take_action "action1").1.go_back).2 = .error .invalidOp) :=
  ⟨rfl, rfl, rfl, rfl, rfl⟩

/-- C3: after the non-raising call sequence `[go_back]` on a freshly
constructed path, `pages_visited` and `actions_taken` are both empty
and the cursor is `None`, so `current_node.page_id ==
pages_visited[-1]` fails (neither side exists); the length-equality
half still holds vacuously. -/
theorem path_invariant_broken_by_go_back :
    (path2.go_back).2 = .ok () ∧
    (path2.go_back).1.pages_uuid = [] ∧
    (path2.go_back).1.actions_taken = [] ∧
    (path2.go_back).1.current_page_node = none :=
  ⟨rfl, rfl, rfl, rfl⟩

/-- C4 counterexample: `tree2` already has a root, yet `add_page` with
no parent succeeds (no `InvalidOperationError`) and silently replaces
the root with the new node. -/
theorem add_page_second_root_no_error :
    tree2.root = some ⟨"0", [⟨"1", []⟩]⟩ ∧
    (tree2.add_page pageN none).2 = .ok () ∧
    (tree2.add_page pageN none).1.root = some ⟨"n", []⟩ :=
  ⟨rfl, rfl, rfl⟩

/-- C4 (amended): whenever the new page's uuid is fresh, `add_page`
with no parent node always succeeds and makes the new node the root,
unconditionally replacing any existing root; the repository gains the
page. -/
theorem add_page_no_parent_sets_root (t : StoryTree) (p : Page)
    (h : repoGet t.pages p.uuid = none) :
    t.add_page p none =
      ({ root := some ⟨p.uuid, []⟩, pages := t.pages ++ [(p.uuid, p)] },
       .ok ()) := by
  simp [StoryTree.add_page, repoAdd, h]

/-- C4 witness: the amended theorem applied to `tree2` (which has a
root) and the fresh page `pageN`. -/
theorem add_page_no_parent_sets_root_witness :
    tree2.add_page pageN none =
      ({ root := some ⟨"n", []⟩, pages := tree2.pages ++ [("n", pageN)] },
       .ok ()) :=
  add_page_no_parent_sets_root tree2 pageN rfl

/-- C10: when the page's uuid is already a key of the repository,
`add_page` raises the duplicate-key `ValueError` from
`PageRepository.add_page` before creating or attaching any node, so
the tree is returned completely unchanged, whatever parent was
given. -/
theorem add_page_duplicate_unchanged (t : StoryTree) (p : Page)
    (pp : Option (List Nat)) (h : (repoGet t.pages p.uuid).isSome = true) :
    t.add_page p pp = (t, .error .duplicateKey) := by
  simp [StoryTree.add_page, repoAdd, h]

/-- C10 witness: adding `page0` (uuid "0", already present) to `tree2`
under the root leaves the tree unchanged and reports the duplicate. -/
theorem add_page_duplicate_unchanged_witness :
    tree2.add_page page0 (some []) = (tree2, .error .duplicateKey) :=
  add_page_duplicate_unchanged tree2 page0 (some []) rfl

/-- C1: removing the root's page id never empties the repository: the
search finds the root (its parent is `None`), the code sets
`self.root = None`, and then reads the local `removed_uuids`, which was
assigned only in the non-root branch — an `UnboundLocalError`. The
tree is left with no root but with every page still in the
repository. -/
theorem remove_page_root_unbound_local (t : StoryTree) (r : TreeNode)
    (h : t.root = some r) :
    t.remove_page r.page_uuid =
      ({ t with root := none }, .error .unboundLocal) := by
  obtain ⟨u, cs⟩ := r
  simp [StoryTree.remove_page, h, TreeNode.searchPos, TreeNode.page_uuid]

/-- C1 witness: the theorem applied to `tree2`, whose root carries
page id "0"; the repository keeps both pages. -/
theorem remove_page_root_unbound_local_witness :
    tree2.remove_page "0" =
      ({ tree2 with root := none }, .error .unboundLocal) :=
  remove_page_root_unbound_local tree2 ⟨"0", [⟨"1", []⟩]⟩ rfl

/-- C8: the two mutating path operations never change the tree held in
`_story_tree` — in every branch, raising or not, the returned state
carries the same `StoryTree` (root, children and repository all
included). The remaining operations (`get_current_page`,
`view_action_options`, `compute_karma`, `get_pages`,
`get_actions_taken`) are plain functions of the path in this embedding
and return no state at all. -/
theorem path_ops_preserve_tree (p : Path) (a : String) :
    (p.take_action a).1.story_tree = p.story_tree ∧
    (p.go_back).1.story_tree = p.story_tree := by
  constructor
  · unfold Path.take_action
    repeat' split
    all_goals rfl
  · unfold Path.go_back
    repeat' split
    all_goals rfl

/-- C6 counterexample: on the chain tree whose END node "e" has a
child "x" of type ACTION, a second `take_action` from the finished
path succeeds and returns `finished = true` even though the newly
entered page's type is ACTION, because `take_action` only ever sets
the flag to true (it never clears it). -/
theorem take_action_finished_not_iff :
    ((pathE0.take_action "actionE").1.take_action "actionX").2 =
      .ok true ∧
    (((pathE0.take_action "actionE").1.take_action
        "actionX").1.get_current_page) = .ok (some pageX) ∧
    pageX.page_type ≠ PageType.END := by
  refine ⟨rfl, rfl, ?_⟩
  intro h
  exact PageType.noConfusion h

/-- C6 (amended): given that `view_action_options` succeeds with
options `opts`, `take_action(a)` fails with the not-found `ValueError`
("action not available") exactly when `a` is not a key of `opts`;
otherwise it moves the cursor to the chosen child, appends the child's
page id and the label to the two history lists, and sets the finished
flag to the disjunction of its previous value with "the new page's
type is END" (so the flag is true iff the new page is END whenever the
path was not already finished), returning that flag. -/
theorem take_action_spec (p : Path) (a : String)
    (opts : List (String × Nat)) (hv : p.view_action_options = .ok opts) :
    (dictLookup opts a = none → p.take_action a = (p, .error .notFound)) ∧
    (∀ i pos r child np,
      dictLookup opts a = some i →
      p.current_page_node = some pos →
      p.story_tree.root = some r →
      r.subtreeAt (pos ++ [i]) = some child →
      repoGet p.story_tree.pages child.page_uuid = some np →
      p.take_action a =
        ({ p with
            current_page_node := some (pos ++ [i])
            pages_uuid := p.pages_uuid ++ [child.page_uuid]
            actions_taken := p.actions_taken ++ [a]
            is_finished :=
              p.is_finished || (np.page_type == PageType.END) },
         .ok (p.is_finished || (np.page_type == PageType.END)))) := by
  constructor
  · intro hl
    simp only [Path.take_action, hv, hl]
  · intro i pos r child np hl hc hr hs hg
    simp only [Path.take_action, hv, hl, hc, hr, hs, hg]
    by_cases he : np.page_type == PageType.END
    · simp [he]
    · simp [he]

/-- C6 witness: the amended theorem applied to the first step of the
chain-tree path: taking "actionE" moves to node "e", grows both
histories and finishes the path (the END page entered from an
unfinished state). -/
theorem take_action_spec_witness :
    pathE0.view_action_options = .ok [("actionE", 0)] ∧
    pathE0.take_action "actionE" =
      ({ pathE0 with
          current_page_node := some [0]
          pages_uuid := ["0", "e"]
          actions_taken := ["start", "actionE"]
          is_finished := true }, .ok true) :=
  ⟨rfl,
   (take_action_spec pathE0 "actionE" [("actionE", 0)] rfl).2
     0 [] rootE nodeE pageE rfl rfl rfl rfl rfl⟩

/-- Dumping the image object read from a document reproduces it. -/
theorem imageMapRound (o : Option ImageDoc) :
    (o.map Image.fromDoc).map
      (fun i => (⟨i.path, i.url, i.description⟩ : ImageDoc)) = o := by
  cases o with
  | none => rfl
  | some iv => cases iv; rfl

/-- A canonical page document loads successfully and dumps back to
itself, field for field. -/
theorem pageFromToDoc (u : String) (d : PageDoc)
    (h : pageDocOk u d = true) :
    ∃ p, Page.fromDoc u d = .ok p ∧ Page.toDoc p = .ok d := by
  obtain ⟨du, dpt, da, ⟨kt, kh, ks, kc⟩, dd, di⟩ := d
  cases kt with
  | none => simp [pageDocOk, karmaDocOk] at h
  | some qt =>
  cases kh with
  | none => simp [pageDocOk, karmaDocOk] at h
  | some qh =>
  cases ks with
  | none => simp [pageDocOk, karmaDocOk] at h
  | some qs =>
  cases kc with
  | none => simp [pageDocOk, karmaDocOk] at h
  | some qc =>
  cases da with
  | none => simp [pageDocOk] at h
  | some a =>
  cases dd with
  | none => simp [pageDocOk] at h
  | some ddv =>
  obtain ⟨dp, dac, dim⟩ := ddv
  cases dp with
  | none => simp [pageDocOk] at h
  | some px =>
  cases dac with
  | none => simp [pageDocOk] at h
  | some ax =>
  cases dim with
  | none => simp [pageDocOk] at h
  | some ix =>
  simp only [pageDocOk, karmaDocOk, Bool.and_eq_true, Bool.or_eq_true,
    beq_iff_eq, decide_eq_true_eq, Option.isSome_some, and_true] at h
  obtain ⟨⟨⟨hu, hpt⟩, ha⟩, hk⟩ := h
  subst hu
  obtain ⟨⟨⟨hk1, hk2⟩, hk3⟩, hk4⟩ := hk
  have ct := cap_of_inRange qt hk1.1 hk1.2
  have ch := cap_of_inRange qh hk2.1 hk2.2
  have cs2 := cap_of_inRange qs hk3.1 hk3.2
  have cc := cap_of_inRange qc hk4.1 hk4.2
  rcases hpt with (rfl | rfl) | rfl
  · refine ⟨⟨u, .START, a, ⟨qt, qh, qs, qc⟩, some ⟨px, ax, ix⟩,
      di.map Image.fromDoc⟩, ?_, ?_⟩
    · simp only [Page.fromDoc, PageType.ofString, KarmaPoints.fromDoc,
        Description.fromDoc, Page.validated, Option.getD_some,
        beq_self_eq_true, if_true, ct, ch, cs2, cc, ha, and_self, if_pos]
    · simp only [Page.toDoc, PageType.str, imageMapRound]
  · refine ⟨⟨u, .ACTION, a, ⟨qt, qh, qs, qc⟩, some ⟨px, ax, ix⟩,
      di.map Image.fromDoc⟩, ?_, ?_⟩
    · simp only [Page.fromDoc, KarmaPoints.fromDoc, Description.fromDoc,
        Page.validated, Option.getD_some, ct, ch, cs2, cc, ha, and_self,
        if_pos,
        show PageType.ofString "action" = Except.ok PageType.ACTION
          from rfl]
    · simp only [Page.toDoc, PageType.str, imageMapRound]
  · refine ⟨⟨u, .END, a, ⟨qt, qh, qs, qc⟩, some ⟨px, ax, ix⟩,
      di.map Image.fromDoc⟩, ?_, ?_⟩
    · simp only [Page.fromDoc, KarmaPoints.fromDoc, Description.fromDoc,
        Page.validated, Option.getD_some, ct, ch, cs2, cc, ha, and_self,
        if_pos,
        show PageType.ofString "end" = Except.ok PageType.END from rfl]
    · simp only [Page.toDoc, PageType.str, imageMapRound]

/-- A pages map whose entries are all canonical loads successfully and
dumps back to itself, in the same order. -/
theorem repoFromToDoc (l : List (String × PageDoc))
    (h : l.all (fun ud => pageDocOk ud.1 ud.2) = true) :
    ∃ ps, repoFromDoc l = .ok ps ∧ repoToDoc ps = .ok l := by
  induction l with
  | nil => exact ⟨[], rfl, rfl⟩
  | cons hd tl ih =>
    obtain ⟨u, d⟩ := hd
    simp only [List.all_cons, Bool.and_eq_true] at h
    obtain ⟨h1, h2⟩ := h
    obtain ⟨p, hp1, hp2⟩ := pageFromToDoc u d h1
    obtain ⟨ps, hr1, hr2⟩ := ih h2
    refine ⟨(u, p) :: ps, ?_, ?_⟩
    · simp [repoFromDoc, hp1, hr1]
    · simp [repoToDoc, hp2, hr2]

mutual

/-- Dumping the tree structure read from a root document reproduces it
exactly (same shape, same order). -/
theorem TreeNode.fromToDoc :
    ∀ d : RootDoc, TreeNode.toDoc (TreeNode.fromDoc d) = d
  | ⟨u, cs⟩ => by
    simp only [TreeNode.fromDoc, TreeNode.toDoc]
    rw [treeListFromToDoc cs]

/-- List version of `TreeNode.fromToDoc`. -/
theorem treeListFromToDoc :
    ∀ cs : List RootDoc, treeListToDoc (treeListFromDoc cs) = cs
  | [] => rfl
  | c :: cs => by
    simp only [treeListFromDoc, treeListToDoc]
    rw [TreeNode.fromToDoc c, treeListFromToDoc cs]

end

/-- C5 counterexample: the one-page document with a null description —
valid in the spec's persisted format — does not round-trip:
`from_document` crashes with a `TypeError` on
`Description(**None)`. -/
theorem round_trip_null_description_fails :
    roundTrip nullDescDoc = .error .typeError ∧
    roundTrip nullDescDoc ≠ .ok nullDescDoc := by
  refine ⟨rfl, fun h => ?_⟩
  have h2 : (Except.error Err.typeError : Except Err StoryDoc) =
      .ok nullDescDoc := h
  exact Except.noConfusion h2

/-- C5 (amended): the round trip `to_document(from_document(doc)) ==
doc` holds for canonical documents: every page entry carries its key
in a `uuid` field, a page type in {"start", "action", "end"}, an
action string of length 1–100, all four karma fields with values
already in [-1, 1], a non-null description with `page`, `action` and
`image` all strings, and a null-or-complete image object; the root
shape always round-trips. Documents with a null description, or a
description missing the `action` field, are instead rejected at
load. -/
theorem document_round_trip (doc : StoryDoc)
    (h : storyDocOk doc = true) : roundTrip doc = .ok doc := by
  obtain ⟨rd, pl⟩ := doc
  unfold storyDocOk at h
  obtain ⟨ps, h1, h2⟩ := repoFromToDoc pl h
  simp only [roundTrip, StoryTreeFactory.fromDoc, StoryTreeWriter.toDoc,
    h1, h2, TreeNode.fromToDoc]

/-- C5 witness: the amended theorem applied to a concrete canonical
two-page document. -/
theorem document_round_trip_witness :
    storyDocOk goodDoc = true ∧ roundTrip goodDoc = .ok goodDoc :=
  ⟨by decide, document_round_trip goodDoc (by decide)⟩

end StoryTeller
